import Mathlib

/-!
Verification of the bulk record generator and session actor of this
repository against its specification.  The definitions below are shallow
embeddings of the TypeScript source (src/index.ts, src/do/UserState.ts):
strings of digits become lists of naturals, `Math.random()`-derived digits
become an explicit stream `rnd : Nat → Fin 10` (`Math.floor(Math.random()*10)`
is a digit drawn from the source), JavaScript timestamps become integers,
and fallible handlers return explicit response values.
-/

namespace Chk

/-! ### Luhn algorithm (src/index.ts, `luhnGenerate`) -/

/-- One doubled digit of the Luhn sum: `digit *= 2; if (digit > 9) digit -= 9`. -/
def luhnDouble (d : Nat) : Nat :=
  if 9 < 2 * d then 2 * d - 9 else 2 * d

/-- The alternating-doubling checksum of `luhnGenerate`'s `for` loop.  The
list is traversed head first, so callers pass the digit sequence reversed
(the loop runs from the rightmost digit down); `alt` is the `alternate`
flag at the head. -/
def luhnSum : Bool → List Nat → Nat
  | _, [] => 0
  | alt, d :: ds => (if alt then luhnDouble d else d) + luhnSum (!alt) ds

/-- The digits appended by the `while` loop of `luhnGenerate`: `k` fresh
digits drawn from the random source starting at stream index `i`. -/
def luhnTake : Nat → (Nat → Fin 10) → Nat → List Nat
  | 0, _, _ => []
  | Nat.succ k, rnd, i => (rnd i).val :: luhnTake k rnd (i + 1)

/-- The `while (number.length < length - 1)` loop of `luhnGenerate`:
append digits from the random source until the target data length. -/
def luhnFill (number : List Nat) (k : Nat) (rnd : Nat → Fin 10) (i : Nat) : List Nat :=
  match k with
  | 0 => number
  | Nat.succ k2 => luhnFill (number ++ [(rnd i).val]) k2 rnd (i + 1)

/-- The tail of `luhnGenerate`: compute the alternating-doubling sum with the
`alternate` flag on at the rightmost data digit and append the check digit
`(10 - (sum % 10)) % 10`. -/
def luhnAppendCheck (number : List Nat) : List Nat :=
  number ++ [(10 - luhnSum true number.reverse % 10) % 10]

/-- `luhnGenerate(prefix, length)` of src/index.ts: pad the supplied digits
with random digits up to `length - 1`, then append the check digit. -/
def luhnGenerate (pfx : List Nat) (len : Nat) (rnd : Nat → Fin 10) : List Nat :=
  luhnAppendCheck (luhnFill pfx (len - 1 - pfx.length) rnd 0)

/-- Modelled from the spec: the independent Luhn validator, absent from the
source, per §4.2/§8 — the alternating-doubling checksum with the alternating
flag applied from the rightmost digit of the full sequence (the check digit
itself is not doubled), congruent to 0 mod 10. -/
def luhnValidate (digits : List Nat) : Bool :=
  luhnSum false digits.reverse % 10 == 0

/-! ### BIN ranges (src/index.ts, `BIN_RANGES`, `isValidBin`) -/

/-- The static range table `BIN_RANGES`, flattened to (network, ranges). -/
def BIN_RANGES : List (String × List (Nat × Nat)) :=
  [("visa", [(400000, 499999)]),
   ("mastercard", [(222100, 272099), (510000, 559999)]),
   ("amex", [(340000, 349999), (370000, 379999)]),
   ("discover", [(601100, 601199), (644000, 659999)]),
   ("jcb", [(352800, 358999)]),
   ("diners", [(300000, 305999), (360000, 369999), (380000, 399999)]),
   ("cup", [(620000, 629999)])]

/-- `parseInt` of a digit string, as a fold over its digits. -/
def digitsToNat (ds : List Nat) : Nat :=
  ds.foldl (fun acc d => 10 * acc + d) 0

/-- `isValidBin`: the numeric prefix lies in some network's inclusive range. -/
def isValidBin (bin : List Nat) : Bool :=
  BIN_RANGES.any (fun network =>
    network.2.any (fun r =>
      decide (r.1 ≤ digitsToNat bin) && decide (digitsToNat bin ≤ r.2)))

/-! ### Card generation (src/index.ts, `generateCards`) -/

/-- `bin.padEnd(length - 1, "0").slice(0, length - 1)` with `length = 16`:
the bin padded with zero digits to 15 and truncated to 15. -/
def padPfx (bin : List Nat) : List Nat :=
  (bin ++ List.replicate (15 - bin.length) 0).take 15

/-- `generateCards(bin, amount)`: after the range check, `amount` records of
16 digits, each produced by `luhnGenerate` on the zero-padded bin.  Each
iteration `i` uses its own slice `rnd i` of the random source; the `mm`,
`yy`, `cvv` decorations of the emitted line are presentational and not part
of the record's digit sequence. -/
def generateCards (bin : List Nat) (amount : Int) (rnd : Nat → Nat → Fin 10) :
    List (List Nat) :=
  if isValidBin bin then
    (List.range amount.toNat).map (fun i => luhnGenerate (padPfx bin) 16 (rnd i))
  else []

/-! ### The /gen handler (src/index.ts, webhook `fetch`, /gen branch) -/

/-- Outcome of the /gen branch: one of the three rejection replies, or the
generated records. -/
inductive GenOutcome where
  | invalidBin
  | notInRange
  | failed
  | generated (cards : List (List Nat))
deriving DecidableEq

/-- `parseInt(args[1]) || 10`: an unparsable or zero count falls back to 10. -/
def parsedAmount (raw : Option Int) : Int :=
  match raw with
  | none => 10
  | some v => if v = 0 then 10 else v

/-- `Math.min(parseInt(args[1]) || 10, 50)`: the hard cap clamps the count. -/
def genAmountClamped (raw : Option Int) : Int :=
  min (parsedAmount raw) 50

/-- The /gen branch of the webhook handler: digits of `args[0]` are truncated
to 6, the count is clamped, and the bin is checked for length and range
before `generateCards` runs. -/
def genHandler (binDigits : List Nat) (raw : Option Int) (rnd : Nat → Nat → Fin 10) :
    GenOutcome :=
  let bin := binDigits.take 6
  let amount := genAmountClamped raw
  if bin.length < 6 then .invalidBin
  else if !isValidBin bin then .notInRange
  else
    let cards := generateCards bin amount rnd
    if cards.length = 0 then .failed else .generated cards

/-- How many records an outcome delivers (a rejection delivers none). -/
def genOutcomeCount : GenOutcome → Nat
  | .generated cards => cards.length
  | _ => 0

/-- Whether the outcome is a rejection reply rather than generated records. -/
def genOutcomeRejected : GenOutcome → Bool
  | .generated _ => false
  | _ => true

/-! ### Rate limiting

Two implementations exist in the source: the Durable Object handler
`handleRateCheck` (src/do/UserState.ts) and the KV block of the webhook
handler (src/index.ts), which exempts `/start`, `/help` and `/bin` from
rejection but still records the timestamp. -/

/-- Pruning a window to the trailing 60 s: `recent.filter(t => now - t < 60_000)`. -/
def pruneWindow (w : List Int) (now : Int) : List Int :=
  w.filter (fun t => decide (now - t < 60000))

/-- `handleRateCheck` of src/do/UserState.ts: prune, reject at quota 3
leaving the stored window untouched, otherwise record `now`.  Returns
(allowed, stored window after the call). -/
def handleRateCheck (w : List Int) (now : Int) : Bool × List Int :=
  let recent := pruneWindow w now
  if 3 ≤ recent.length then (false, w)
  else (true, recent ++ [now])

/-- The commands the webhook rate-limit block exempts from rejection. -/
def exemptCmds : List String := ["/start", "/help", "/bin"]

/-- The KV rate-limit block of the webhook handler (src/index.ts): prune,
reject non-exempt commands at quota 3 without writing, but for any command
that passes the guard — including exempt ones over quota — append `now` and
store the pruned window.  Returns (allowed, stored window after the call). -/
def kvRateStep (w : List Int) (now : Int) (cmd : String) : Bool × List Int :=
  let valid := pruneWindow w now
  if 3 ≤ valid.length ∧ ¬ (exemptCmds.contains cmd) then (false, w)
  else (true, valid ++ [now])

/-- A sequence of `handleRateCheck` calls starting from the empty window. -/
def doRun (nows : List Int) : List Int :=
  nows.foldl (fun w now => (handleRateCheck w now).2) []

/-- A sequence of KV rate-limit block executions starting from the empty
window; each step carries its timestamp and the command being handled. -/
def kvRun (steps : List (Int × String)) : List Int :=
  steps.foldl (fun w s => (kvRateStep w s.1 s.2).2) []

/-! ### Session actor (src/do/UserState.ts) -/

/-- The `checking` state of `UserState`: the active verification session. -/
structure Checking where
  cards : List String
  live : Nat
  die : Nat
  unknown : Nat
  error : Nat
  startTime : Int
  messageId : Nat
  results : List String
deriving DecidableEq

/-- The four outcome categories of a checked item. -/
inductive CardStatus where
  | live
  | die
  | unknown
  | error
deriving DecidableEq

/-- A session-actor response: plain OK, the "No session" error, the empty
JSON object, or a progress snapshot (progress ratio string, the four
counters, elapsed milliseconds — the source divides by 1000 and formats with
`toFixed(2)`, which is presentational). -/
inductive ActorResp where
  | ok
  | noSession
  | emptyObj
  | snapshot (progress : String) (live die unknown error : Nat) (elapsedMs : Int)
deriving DecidableEq

/-- `handleStartCheck`: unconditionally installs a fresh session (zero
counters, empty results, `startTime = now`) and replies OK. -/
def handleStartCheck (_st : Option Checking) (cards : List String) (messageId : Nat)
    (now : Int) : Option Checking × ActorResp :=
  (some { cards := cards, live := 0, die := 0, unknown := 0, error := 0,
          startTime := now, messageId := messageId, results := [] }, .ok)

/-- The counter of `c` for a given outcome. -/
def counterOf (c : Checking) : CardStatus → Nat
  | .live => c.live
  | .die => c.die
  | .unknown => c.unknown
  | .error => c.error

/-- The total checked count: the sum of the four outcome counters. -/
def checkedCount (c : Checking) : Nat :=
  c.live + c.die + c.unknown + c.error

/-- The `if/else if` chain of `handleUpdateProgress` that increments exactly
one counter for the reported outcome. -/
def bumpCounter (c : Checking) : CardStatus → Checking
  | .live => { c with live := c.live + 1 }
  | .die => { c with die := c.die + 1 }
  | .unknown => { c with unknown := c.unknown + 1 }
  | .error => { c with error := c.error + 1 }

/-- `handleUpdateProgress`: "No session" when no session is active; otherwise
increment the outcome's counter, append the formatted result, and reply with
the snapshot whose progress ratio is `index+1 / cards.length`. -/
def handleUpdateProgress (st : Option Checking) (index : Nat) (status : CardStatus)
    (result : String) (now : Int) : Option Checking × ActorResp :=
  match st with
  | none => (none, .noSession)
  | some c =>
    let c1 := bumpCounter c status
    let c2 := { c1 with results := c1.results ++ [result] }
    (some c2,
     .snapshot (toString (index + 1) ++ "/" ++ toString c2.cards.length)
       c2.live c2.die c2.unknown c2.error (now - c2.startTime))

/-- `handleGetProgress`: the empty object when no session is active,
otherwise the snapshot with progress `results.length / cards.length`; the
state is never mutated. -/
def handleGetProgress (st : Option Checking) (now : Int) :
    Option Checking × ActorResp :=
  match st with
  | none => (none, .emptyObj)
  | some c =>
    (some c,
     .snapshot (toString c.results.length ++ "/" ++ toString c.cards.length)
       c.live c.die c.unknown c.error (now - c.startTime))

/-- One operation addressed to the session actor's `checking` state. -/
inductive ActorOp where
  | start (cards : List String) (messageId : Nat) (now : Int)
  | update (index : Nat) (status : CardStatus) (result : String) (now : Int)
  | get (now : Int)

/-- The state transition of one actor operation. -/
def actorStep (st : Option Checking) : ActorOp → Option Checking
  | .start cards messageId now => (handleStartCheck st cards messageId now).1
  | .update index status result now => (handleUpdateProgress st index status result now).1
  | .get now => (handleGetProgress st now).1

/-- The actor's `checking` state after a sequence of operations, from the
initial `null`. -/
def runActor (ops : List ActorOp) : Option Checking :=
  ops.foldl actorStep none

/-! ### Card checker (src/index.ts, `checkCard`) and the /chk loop -/

/-- What the external gateway call produced, as `checkCard` observes it:
a thrown error (network failure or malformed JSON body), a non-success HTTP
status (`!res.ok`), or a parsed body carrying the optional `msg` and
`message` fields. -/
inductive GatewayResp where
  | thrown
  | notOk (code : Nat)
  | okBody (msg : Option String) (message : Option String)
deriving DecidableEq

/-- JavaScript `a || b` on an optional string field: an absent or empty
string falls through to the alternative. -/
def jsOrStr (a : Option String) (b : String) : String :=
  match a with
  | none => b
  | some s => if s.isEmpty then b else s

/-- `json.msg || json.message || ""`. -/
def htmlOf (msg message : Option String) : String :=
  jsOrStr msg (jsOrStr message "")

/-- `html.toLowerCase()` (the markers are ASCII). -/
def toLowerStr (s : String) : String :=
  s.map Char.toLower

/-- `s.includes(pat)`: substring containment. -/
def containsStr (s pat : String) : Bool :=
  decide (pat.data <:+: s.data)

/-- The live markers: `"live"`, `"approved"`, `"success"`, scanned on the
lowercased body. -/
def hasLiveMarker (html : String) : Bool :=
  containsStr (toLowerStr html) "live" || containsStr (toLowerStr html) "approved"
    || containsStr (toLowerStr html) "success"

/-- The die markers: `"die"`, `"declined"`, `"failed"`. -/
def hasDieMarker (html : String) : Bool :=
  containsStr (toLowerStr html) "die" || containsStr (toLowerStr html) "declined"
    || containsStr (toLowerStr html) "failed"

/-- The pending/unknown markers: `"unknown"`, `"pending"`. -/
def hasUnknownMarker (html : String) : Bool :=
  containsStr (toLowerStr html) "unknown" || containsStr (toLowerStr html) "pending"

/-- The destructuring guard of `checkCard`: `card.split("|")` must yield a
truthy (present and non-empty) part at each of the four positions. -/
def cardFormatOk (card : String) : Bool :=
  let parts := card.splitOn "|"
  (match parts[0]? with | some s => !s.isEmpty | none => false)
    && (match parts[1]? with | some s => !s.isEmpty | none => false)
    && (match parts[2]? with | some s => !s.isEmpty | none => false)
    && (match parts[3]? with | some s => !s.isEmpty | none => false)

/-- `checkCard`, reduced to the outcome classification: malformed input,
a thrown gateway error, or a non-success HTTP status classify as `error`;
otherwise the lowercased body is scanned for markers in the order
live, die, unknown, and a body with no recognized marker classifies as
`error`. -/
def checkCard (card : String) (resp : GatewayResp) : CardStatus :=
  if !cardFormatOk card then .error
  else
    match resp with
    | .thrown => .error
    | .notOk _ => .error
    | .okBody msg message =>
      let html := htmlOf msg message
      if hasLiveMarker html then .live
      else if hasDieMarker html then .die
      else if hasUnknownMarker html then .unknown
      else .error

/-- The counter increments of the /chk loop, one per checked item. -/
def chkStep (acc : Nat × Nat × Nat × Nat) (s : CardStatus) : Nat × Nat × Nat × Nat :=
  match s with
  | .live => (acc.1 + 1, acc.2.1, acc.2.2.1, acc.2.2.2)
  | .die => (acc.1, acc.2.1 + 1, acc.2.2.1, acc.2.2.2)
  | .unknown => (acc.1, acc.2.1, acc.2.2.1 + 1, acc.2.2.2)
  | .error => (acc.1, acc.2.1, acc.2.2.1, acc.2.2.2 + 1)

/-- The /chk loop of the webhook handler: every item is checked in order and
exactly one of the four counters is incremented for it; no item aborts the
batch. -/
def chkCounts (items : List (String × GatewayResp)) : Nat × Nat × Nat × Nat :=
  items.foldl (fun acc it => chkStep acc (checkCard it.1 it.2)) (0, 0, 0, 0)

/-! ### Luhn round-trip lemmas -/

/-- Appending the check digit makes the full sequence validate: the
validator's sum over the reversed full sequence is the check digit (flag
off) plus the generator's sum (flag on at the rightmost data digit). -/
theorem luhnValidate_appendCheck (number : List Nat) :
    luhnValidate (luhnAppendCheck number) = true := by
  have h : (number ++ [(10 - luhnSum true number.reverse % 10) % 10]).reverse
      = (10 - luhnSum true number.reverse % 10) % 10 :: number.reverse := by
    simp
  unfold luhnValidate luhnAppendCheck
  rw [h, luhnSum, if_neg (by decide : ¬ ((false : Bool) = true)), Bool.not_false,
    beq_iff_eq]
  omega

/-- `luhnFill` appends exactly the digits `luhnTake` reads off the source. -/
theorem luhnFill_eq_append (k : Nat) :
    ∀ (number : List Nat) (rnd : Nat → Fin 10) (i : Nat),
      luhnFill number k rnd i = number ++ luhnTake k rnd i := by
  induction k with
  | zero => intro number rnd i; simp [luhnFill, luhnTake]
  | succ k2 ih =>
    intro number rnd i
    rw [luhnFill, ih, luhnTake, List.append_assoc, List.singleton_append]

/-- The digits read off the source, positionally. -/
theorem luhnTake_getElem (k : Nat) :
    ∀ (rnd : Nat → Fin 10) (i j : Nat), j < k →
      (luhnTake k rnd i)[j]? = some ((rnd (i + j)).val) := by
  induction k with
  | zero => intro _ _ j h; omega
  | succ k2 ih =>
    intro rnd i j h
    cases j with
    | zero => simp [luhnTake]
    | succ j2 =>
      rw [luhnTake, List.getElem?_cons_succ]
      have hi : i + (j2 + 1) = (i + 1) + j2 := by omega
      rw [hi]
      exact ih rnd (i + 1) j2 (by omega)

/-- The number of digits read off the source. -/
theorem luhnTake_length (k : Nat) :
    ∀ (rnd : Nat → Fin 10) (i : Nat), (luhnTake k rnd i).length = k := by
  induction k with
  | zero => intro _ _; rfl
  | succ k2 ih => intro rnd i; rw [luhnTake]; simp [ih]

/-- C1: for every valid 6-digit prefix and every generated record, the full
digit sequence of the record (check digit included) passes Luhn validation —
the alternating-doubling checksum with the flag applied from the rightmost
digit of the full sequence is congruent to 0 mod 10, so generation and the
independent validator round-trip. -/
theorem c1_generated_records_pass_luhn (bin : List Nat) (amount : Int)
    (rnd : Nat → Nat → Fin 10) (_hlen : bin.length = 6) (_hdig : ∀ d ∈ bin, d < 10) :
    ∀ card ∈ generateCards bin amount rnd, luhnValidate card = true := by
  intro card hc
  unfold generateCards at hc
  by_cases hv : isValidBin bin
  · rw [if_pos hv] at hc
    obtain ⟨i, _, rfl⟩ := List.mem_map.mp hc
    exact luhnValidate_appendCheck _
  · rw [if_neg hv] at hc
    exact absurd hc (List.not_mem_nil card)

/-- C1 witness: the record generated for bin 515462 from the constant-7
source passes the independent validator. -/
theorem c1_witness :
    luhnValidate [5, 1, 5, 4, 6, 2, 0, 0, 0, 0, 0, 0, 0, 0, 0, 8] = true :=
  c1_generated_records_pass_luhn [5, 1, 5, 4, 6, 2] 1 (fun _ _ => (7 : Fin 10))
    rfl (by decide) [5, 1, 5, 4, 6, 2, 0, 0, 0, 0, 0, 0, 0, 0, 0, 8] (by decide)

/-- C2: for every in-range 6-digit prefix and every requested amount, each
record returned by the generator begins with exactly the resolved prefix —
its first `len(prefix)` digits equal the prefix character for character. -/
theorem c2_records_start_with_bin (bin : List Nat) (amount : Int)
    (rnd : Nat → Nat → Fin 10) (hlen : bin.length = 6) (hvalid : isValidBin bin = true) :
    ∀ card ∈ generateCards bin amount rnd, card.take bin.length = bin := by
  intro card hc
  unfold generateCards at hc
  rw [if_pos hvalid] at hc
  obtain ⟨i, _, rfl⟩ := List.mem_map.mp hc
  have hp : padPfx bin = bin ++ List.replicate 9 0 := by
    unfold padPfx
    have h9 : 15 - bin.length = 9 := by omega
    rw [h9]
    exact List.take_of_length_le (by simp [hlen])
  have hpl : (padPfx bin).length = 15 := by rw [hp]; simp [hlen]
  unfold luhnGenerate luhnAppendCheck
  rw [hpl]
  have h0 : (16 : Nat) - 1 - 15 = 0 := rfl
  rw [h0, luhnFill, hp, hlen, List.append_assoc]
  exact List.take_left' hlen

/-- C2 witness: the record generated for bin 515462 starts with 515462. -/
theorem c2_witness :
    List.take 6 [5, 1, 5, 4, 6, 2, 0, 0, 0, 0, 0, 0, 0, 0, 0, 8] = [5, 1, 5, 4, 6, 2] :=
  c2_records_start_with_bin [5, 1, 5, 4, 6, 2] 1 (fun _ _ => (7 : Fin 10)) rfl (by decide)
    [5, 1, 5, 4, 6, 2, 0, 0, 0, 0, 0, 0, 0, 0, 0, 8] (by decide)

/-- C3: the checksum generator fills every position in
`[len(prefix), totalLength-1)` — every data digit between the supplied
prefix and the check digit — with the next digit drawn from the random
source (an independently uniform digit, `Math.floor(Math.random()*10)`,
modelled as the stream `rnd`), for every prefix and total length with
`totalLength > len(prefix)`.  Note that `generateCards` instantiates this
with the bin pre-padded to 15 digits, making the filled interval empty. -/
theorem c3_fill_draws_from_random_source (pfx : List Nat) (len : Nat)
    (rnd : Nat → Fin 10) (i : Nat) (h1 : pfx.length < len) (h2 : pfx.length ≤ i)
    (h3 : i < len - 1) :
    (luhnGenerate pfx len rnd)[i]? = some ((rnd (i - pfx.length)).val) := by
  unfold luhnGenerate luhnAppendCheck
  rw [luhnFill_eq_append]
  have hlt : i < (pfx ++ luhnTake (len - 1 - pfx.length) rnd 0).length := by
    rw [List.length_append, luhnTake_length]
    omega
  rw [List.getElem?_append_left hlt, List.getElem?_append_right h2,
    luhnTake_getElem (len - 1 - pfx.length) rnd 0 (i - pfx.length) (by omega),
    Nat.zero_add]

/-- C3 witness: with a 6-digit prefix and total length 16, position 7 of the
generated record is the second digit drawn from the constant-7 source. -/
theorem c3_witness :
    (luhnGenerate [4, 0, 0, 0, 0, 0] 16 (fun _ => (7 : Fin 10)))[7]? = some 7 :=
  c3_fill_draws_from_random_source [4, 0, 0, 0, 0, 0] 16 (fun _ => (7 : Fin 10)) 7
    (by decide) (by decide) (by decide)

/-! ### C4: the /gen count cap -/

/-- C4 counterexample: a /gen request of 60,000 for the in-range bin 515462
is not rejected — the handler truncates the count and produces 50 records,
refuting that over-cap requests are rejected with zero records produced. -/
theorem c4_counterexample :
    genOutcomeRejected (genHandler [5, 1, 5, 4, 6, 2] (some 60000)
        (fun _ _ => (0 : Fin 10))) = false
    ∧ genOutcomeCount (genHandler [5, 1, 5, 4, 6, 2] (some 60000)
        (fun _ _ => (0 : Fin 10))) = 50 := by
  constructor <;> rfl

/-- The number of records `generateCards` produces for an in-range bin. -/
theorem generateCards_length (bin : List Nat) (amount : Int) (rnd : Nat → Nat → Fin 10)
    (hvalid : isValidBin bin = true) :
    (generateCards bin amount rnd).length = amount.toNat := by
  unfold generateCards
  rw [if_pos hvalid, List.length_map, List.length_range]

/-- C4 amended: a /gen request whose count exceeds the hard cap of 50 is not
rejected; the count is clamped to 50 by `Math.min` and generation proceeds,
producing exactly 50 records for any in-range 6-digit bin. -/
theorem c4_amended_count_truncated (binDigits : List Nat) (v : Int)
    (rnd : Nat → Nat → Fin 10) (hlen : binDigits.length = 6)
    (hvalid : isValidBin binDigits = true) (hv : 50 < v) :
    genOutcomeRejected (genHandler binDigits (some v) rnd) = false
    ∧ genOutcomeCount (genHandler binDigits (some v) rnd) = 50 := by
  have htake : binDigits.take 6 = binDigits := List.take_of_length_le (by omega)
  have hparse : parsedAmount (some v) = v := if_neg (by omega : ¬ v = 0)
  have hamount : genAmountClamped (some v) = 50 := by
    unfold genAmountClamped
    rw [hparse]
    exact min_eq_right (by omega)
  have hcards : (generateCards binDigits 50 rnd).length = 50 := by
    rw [generateCards_length binDigits 50 rnd hvalid]
    rfl
  unfold genHandler
  rw [htake, hamount]
  simp only [hlen, hvalid, hcards, Nat.lt_irrefl, ite_false, Bool.not_true,
    Bool.false_eq_true, if_false]
  rw [if_neg (by decide : ¬ (50 : Nat) = 0)]
  exact ⟨rfl, hcards⟩

/-- C4 witness: the amended behavior at the concrete over-cap request 60,000
for bin 515462. -/
theorem c4_witness :
    genOutcomeRejected (genHandler [5, 1, 5, 4, 6, 2] (some 60000)
        (fun _ _ => (3 : Fin 10))) = false
    ∧ genOutcomeCount (genHandler [5, 1, 5, 4, 6, 2] (some 60000)
        (fun _ _ => (3 : Fin 10))) = 50 :=
  c4_amended_count_truncated [5, 1, 5, 4, 6, 2] 60000 (fun _ _ => (3 : Fin 10))
    rfl (by decide) (by decide)

/-! ### C5/C6: rate limiting -/

/-- C5: `handleRateCheck` first prunes the stored window to the trailing
60 s; at or above the quota of 3 it answers `false` and the stored window
does not gain `now`, and below quota it appends `now` and answers `true`. -/
theorem c5_rate_check_spec (w : List Int) (now : Int) :
    (3 ≤ (pruneWindow w now).length → handleRateCheck w now = (false, w))
    ∧ ((pruneWindow w now).length < 3 →
        handleRateCheck w now = (true, pruneWindow w now ++ [now])) := by
  constructor
  · intro h
    unfold handleRateCheck
    rw [if_pos h]
  · intro h
    unfold handleRateCheck
    rw [if_neg (by omega)]

/-- One `handleRateCheck` call keeps the stored window at no more than 3
entries. -/
theorem handleRateCheck_len (w : List Int) (now : Int) (h : w.length ≤ 3) :
    ((handleRateCheck w now).2).length ≤ 3 := by
  unfold handleRateCheck
  have hp : (pruneWindow w now).length ≤ w.length := List.length_filter_le _ _
  by_cases hq : 3 ≤ (pruneWindow w now).length
  · rw [if_pos hq]
    exact h
  · rw [if_neg hq]
    simp only [List.length_append, List.length_cons, List.length_nil]
    omega

/-- One non-exempt KV rate-limit step keeps the stored window at no more
than 3 entries. -/
theorem kvRateStep_len (w : List Int) (now : Int) (cmd : String)
    (hc : exemptCmds.contains cmd = false) (h : w.length ≤ 3) :
    ((kvRateStep w now cmd).2).length ≤ 3 := by
  unfold kvRateStep
  have hp : (pruneWindow w now).length ≤ w.length := List.length_filter_le _ _
  by_cases hq : 3 ≤ (pruneWindow w now).length
  · rw [if_pos ⟨hq, by rw [hc]; exact Bool.false_ne_true⟩]
    exact h
  · rw [if_neg (fun hcon => hq hcon.1)]
    simp only [List.length_append, List.length_cons, List.length_nil]
    omega

/-- C6 counterexample: four webhook dispatches of the exempt command /start
at the same instant, from the empty window, leave the stored window with 4
entries inside the trailing 60 s — the pruned length exceeds the quota of 3,
refuting the invariant on the exempted command path. -/
theorem c6_counterexample :
    (pruneWindow (kvRun [(0, "/start"), (0, "/start"), (0, "/start"), (0, "/start")])
        0).length = 4
    ∧ ¬ (pruneWindow (kvRun [(0, "/start"), (0, "/start"), (0, "/start"), (0, "/start")])
        0).length ≤ 3 := by
  constructor <;> decide

/-- C6 amended: after any sequence of `handleRateCheck` calls from the empty
window the stored window — and hence its pruning to any trailing 60 s window
— never holds more than the quota of 3 entries, and likewise for the
webhook's KV rate-limit block as long as no exempt command is dispatched;
an exempt command (/start, /help, /bin) records its timestamp even at quota,
so the invariant does not extend to the exempted command path. -/
theorem c6_amended_window_bound :
    (∀ nows : List Int, (doRun nows).length ≤ 3)
    ∧ (∀ steps : List (Int × String),
        (∀ s ∈ steps, exemptCmds.contains s.2 = false) → (kvRun steps).length ≤ 3) := by
  constructor
  · intro nows
    have h : ∀ (l : List Int) (w : List Int), w.length ≤ 3 →
        (l.foldl (fun w now => (handleRateCheck w now).2) w).length ≤ 3 := by
      intro l
      induction l with
      | nil => intro w hw; exact hw
      | cons a l2 ih =>
        intro w hw
        exact ih _ (handleRateCheck_len w a hw)
    exact h nows [] (by decide)
  · intro steps hex
    have h : ∀ (l : List (Int × String)), (∀ s ∈ l, exemptCmds.contains s.2 = false) →
        ∀ (w : List Int), w.length ≤ 3 →
        (l.foldl (fun w s => (kvRateStep w s.1 s.2).2) w).length ≤ 3 := by
      intro l
      induction l with
      | nil => intro _ w hw; exact hw
      | cons a l2 ih =>
        intro hal w hw
        exact ih (fun s hs => hal s (List.mem_cons_of_mem a hs)) _
          (kvRateStep_len w a.1 a.2 (hal a (List.mem_cons_self a l2)) hw)
    exact h steps hex [] (by decide)

/-! ### C7/C8/C10: the session actor -/

/-- C7 counterexample: with a session already active, `handleStartCheck`
does not return an error — it replies OK and replaces the active session,
refuting that a start while active fails and leaves the session untouched. -/
theorem c7_counterexample :
    (handleStartCheck
      (some
        { cards := ["old"], live := 1, die := 2, unknown := 3, error := 4,
          startTime := 5, messageId := 6, results := ["r1", "r2"] })
      ["new"] 7 100).2 = ActorResp.ok
    ∧ (handleStartCheck
      (some
        { cards := ["old"], live := 1, die := 2, unknown := 3, error := 4,
          startTime := 5, messageId := 6, results := ["r1", "r2"] })
      ["new"] 7 100).1
      ≠ some
        { cards := ["old"], live := 1, die := 2, unknown := 3, error := 4,
          startTime := 5, messageId := 6, results := ["r1", "r2"] } := by
  constructor
  · rfl
  · decide

/-- C7 amended: `handleStartCheck` never fails — whatever the current state
(active session or none), it replies OK and installs a fresh session with
zero counters, empty results and `startedAt = now`, superseding any active
session. -/
theorem c7_amended_start_replaces (st : Option Checking) (cards : List String)
    (messageId : Nat) (now : Int) :
    handleStartCheck st cards messageId now
      = (some { cards := cards, live := 0, die := 0, unknown := 0, error := 0,
                startTime := now, messageId := messageId, results := [] },
         ActorResp.ok) :=
  rfl

/-- C8: `handleUpdateProgress` fails with "No session" when no session is
active; with an active session it increments exactly the counter of the
reported outcome by one (the others unchanged), appends the formatted
result, and returns the snapshot whose checked total — the sum of the four
counters — is exactly one greater than before, with progress reported as
the ratio string `index+1 / total`. -/
theorem c8_update_progress_spec (c : Checking) (index : Nat) (status : CardStatus)
    (result : String) (now : Int) :
    handleUpdateProgress none index status result now = (none, ActorResp.noSession)
    ∧ ∃ c2, (handleUpdateProgress (some c) index status result now).1 = some c2
        ∧ checkedCount c2 = checkedCount c + 1
        ∧ counterOf c2 status = counterOf c status + 1
        ∧ (∀ s, s ≠ status → counterOf c2 s = counterOf c s)
        ∧ c2.results = c.results ++ [result]
        ∧ (handleUpdateProgress (some c) index status result now).2
            = ActorResp.snapshot (toString (index + 1) ++ "/" ++ toString c.cards.length)
                c2.live c2.die c2.unknown c2.error (now - c.startTime) := by
  refine ⟨rfl, ?_⟩
  cases status with
  | live =>
    refine ⟨_, rfl, ?_, rfl, ?_, rfl, rfl⟩
    · simp [checkedCount, bumpCounter]
      omega
    · intro s hs
      cases s <;> first | exact absurd rfl hs | rfl
  | die =>
    refine ⟨_, rfl, ?_, rfl, ?_, rfl, rfl⟩
    · simp [checkedCount, bumpCounter]
      omega
    · intro s hs
      cases s <;> first | exact absurd rfl hs | rfl
  | unknown =>
    refine ⟨_, rfl, ?_, rfl, ?_, rfl, rfl⟩
    · simp [checkedCount, bumpCounter]
      omega
    · intro s hs
      cases s <;> first | exact absurd rfl hs | rfl
  | error =>
    refine ⟨_, rfl, ?_, rfl, ?_, rfl, rfl⟩
    · simp [checkedCount, bumpCounter]
      omega
    · intro s hs
      cases s <;> first | exact absurd rfl hs | rfl

/-- The session invariant of C10: whenever a session is active, the four
outcome counters sum to the length of the results list. -/
def actorInv (st : Option Checking) : Prop :=
  ∀ c, st = some c → checkedCount c = c.results.length

/-- Every actor operation preserves the session invariant. -/
theorem actorStep_inv (st : Option Checking) (op : ActorOp) (h : actorInv st) :
    actorInv (actorStep st op) := by
  cases op with
  | start cards messageId now =>
    intro c hc
    cases hc
    rfl
  | update index status result now =>
    cases st with
    | none => intro c hc; cases hc
    | some c0 =>
      intro c hc
      cases hc
      have h0 := h c0 rfl
      cases status <;>
        simp [checkedCount, bumpCounter, checkedCount] at h0 ⊢ <;> omega
  | get now =>
    cases st with
    | none => intro c hc; cases hc
    | some c0 => intro c hc; cases hc; exact h c0 rfl

/-- C10: in the session actor, after any sequence of start / update-progress
/ get-progress operations from the initial empty state, whenever a session
is active the sum of the four outcome counters equals the length of the
results list — the invariant holds after `startSession` (all zero, empty
list) and is preserved by every `updateProgress` and `getProgress`. -/
theorem c10_counters_sum_results (ops : List ActorOp) (c : Checking)
    (h : runActor ops = some c) : checkedCount c = c.results.length := by
  have hrun : ∀ (l : List ActorOp) (st : Option Checking), actorInv st →
      actorInv (l.foldl actorStep st) := by
    intro l
    induction l with
    | nil => intro st hst; exact hst
    | cons op l2 ih => intro st hst; exact ih _ (actorStep_inv st op hst)
  exact hrun ops none (fun c hc => by cases hc) c h

/-- C10 witness: the invariant at the concrete state reached by a start
followed by one live update. -/
theorem c10_witness :
    checkedCount
      { cards := ["a"], live := 1, die := 0, unknown := 0, error := 0,
        startTime := 0, messageId := 1, results := ["r"] }
      = (Checking.mk ["a"] 1 0 0 0 0 1 ["r"]).results.length :=
  c10_counters_sum_results [ActorOp.start ["a"] 1 0, ActorOp.update 0 CardStatus.live "r" 3]
    (Checking.mk ["a"] 1 0 0 0 0 1 ["r"]) (by decide)

/-! ### C9: outcome classification -/

/-- The total of the four counters of the /chk loop. -/
def sum4 (a : Nat × Nat × Nat × Nat) : Nat :=
  a.1 + a.2.1 + a.2.2.1 + a.2.2.2

/-- The error counter of the /chk loop. -/
def err4 (a : Nat × Nat × Nat × Nat) : Nat :=
  a.2.2.2

/-- Each checked item bumps the counter total by exactly one. -/
theorem chkStep_sum (acc : Nat × Nat × Nat × Nat) (s : CardStatus) :
    sum4 (chkStep acc s) = sum4 acc + 1 := by
  cases s <;> simp [chkStep, sum4] <;> omega

/-- Each checked item bumps the error counter exactly when it classified as
an error. -/
theorem chkStep_err (acc : Nat × Nat × Nat × Nat) (s : CardStatus) :
    err4 (chkStep acc s) = err4 acc + (if s == CardStatus.error then 1 else 0) := by
  cases s <;> simp [chkStep, err4]

/-- The /chk loop counts every item exactly once. -/
theorem chk_fold_sum (items : List (String × GatewayResp)) :
    ∀ acc, sum4 (items.foldl (fun acc it => chkStep acc (checkCard it.1 it.2)) acc)
      = sum4 acc + items.length := by
  induction items with
  | nil => intro acc; simp
  | cons it rest ih =>
    intro acc
    rw [List.foldl_cons, ih, chkStep_sum, List.length_cons]
    omega

/-- The /chk loop's error counter counts exactly the error-classified items. -/
theorem chk_fold_err (items : List (String × GatewayResp)) :
    ∀ acc, err4 (items.foldl (fun acc it => chkStep acc (checkCard it.1 it.2)) acc)
      = err4 acc + (items.filter (fun it => checkCard it.1 it.2 == CardStatus.error)).length := by
  induction items with
  | nil => intro acc; simp
  | cons it rest ih =>
    intro acc
    rw [List.foldl_cons, ih, chkStep_err, List.filter_cons]
    by_cases h : checkCard it.1 it.2 == CardStatus.error
    · rw [if_pos h, if_pos h, List.length_cons]
      omega
    · rw [if_neg h, if_neg h]
      omega

/-- C9: every external check response classifies into exactly one of the
four categories by case-insensitive marker scan, in the source's order —
a live marker yields `live`; otherwise a die marker yields `die`; otherwise
a pending/unknown marker yields `unknown`; and absence of any recognized
marker, a non-success HTTP status, a thrown/malformed body, or a malformed
item all yield `error`.  In particular a marker-free body with a successful
HTTP status is classified `error`, and the /chk batch continues: the four
counters account for every item, the error counter counting exactly the
error-classified ones. -/
theorem c9_check_card_classification (card : String) (resp : GatewayResp)
    (msg message : Option String) :
    (cardFormatOk card = false → checkCard card resp = CardStatus.error)
    ∧ checkCard card GatewayResp.thrown = CardStatus.error
    ∧ (∀ code, checkCard card (GatewayResp.notOk code) = CardStatus.error)
    ∧ (cardFormatOk card = true →
        (hasLiveMarker (htmlOf msg message) = true →
            checkCard card (GatewayResp.okBody msg message) = CardStatus.live)
        ∧ (hasLiveMarker (htmlOf msg message) = false →
            hasDieMarker (htmlOf msg message) = true →
            checkCard card (GatewayResp.okBody msg message) = CardStatus.die)
        ∧ (hasLiveMarker (htmlOf msg message) = false →
            hasDieMarker (htmlOf msg message) = false →
            hasUnknownMarker (htmlOf msg message) = true →
            checkCard card (GatewayResp.okBody msg message) = CardStatus.unknown)
        ∧ (hasLiveMarker (htmlOf msg message) = false →
            hasDieMarker (htmlOf msg message) = false →
            hasUnknownMarker (htmlOf msg message) = false →
            checkCard card (GatewayResp.okBody msg message) = CardStatus.error))
    ∧ (∀ items : List (String × GatewayResp),
        sum4 (chkCounts items) = items.length
        ∧ err4 (chkCounts items)
          = (items.filter (fun it => checkCard it.1 it.2 == CardStatus.error)).length) := by
  refine ⟨?_, ?_, ?_, ?_, ?_⟩
  · intro h
    cases resp <;> simp [checkCard, h]
  · by_cases h : cardFormatOk card <;> simp [checkCard, h]
  · intro code
    by_cases h : cardFormatOk card <;> simp [checkCard, h]
  · intro hfmt
    refine ⟨?_, ?_, ?_, ?_⟩
    · intro hl
      simp [checkCard, hfmt, hl]
    · intro hl hd
      simp [checkCard, hfmt, hl, hd]
    · intro hl hd hu
      simp [checkCard, hfmt, hl, hd, hu]
    · intro hl hd hu
      simp [checkCard, hfmt, hl, hd, hu]
  · intro items
    unfold chkCounts
    rw [chk_fold_sum, chk_fold_err]
    constructor <;> simp [sum4, err4]

end Chk
